import Mathlib

/-!
Shallow embedding of the appointment-scheduler / recording-pipeline core of the
voicebot backend (`voice_api`): `models.py`, `services/calendar_service.py`,
`services/appointment_recording_service.py`, `scheduler.py`, `serializers.py`
and `calendar_views.py`, together with the return shapes of the three
external-call services (`speech_to_text_service.py`,
`intent_classifier_service.py`, `entity_extraction_service.py`).

Datetimes are modelled as integer seconds; `timedelta(minutes=m)` is `m * 60`.
Python `int(q)` applied to an exact quotient of integer second counts truncates
toward zero, which on integers is `Int.tdiv`.  External network behavior
(HTTP status codes, service results) is supplied by explicit environment
parameters; database rows live in an explicit `Store`.
-/

/-- `CalendarAppointment` (models.py, lines 279-344).  Field defaults follow the
Django model defaults; timestamps are integer seconds.  Fields that no claim
inspects (description, color, location, attendees, notes, base_url, audit
timestamps) are omitted. -/
structure Appointment where
  id : Nat
  user_email : String
  title : String
  start_time : Int
  end_time : Int
  duration_minutes : Int
  auto_record : Bool := true
  reminder_minutes_before : Int := 5
  reminder_sent : Bool := false
  reminder_sent_at : Option Int := none
  status : String := "scheduled"
  conversation_id : Option Nat := none
  conversation_link_sent : Bool := false
deriving DecidableEq

/-- `AppointmentRecording` (models.py, lines 347-433).  `created_at` is the row
creation time used by `get_recording_by_appointment`'s `order_by` clause. -/
structure Recording where
  id : Nat
  appointment_id : Nat
  audio_file : Option String := none
  file_size : Option Int := none
  file_format : Option String := none
  transcribed_text : Option String := none
  summary : Option String := none
  intent : Option String := none
  intent_confidence : Option Rat := none
  keywords : List String := []
  entities : List String := []
  domain_terms : List String := []
  action_items : List String := []
  topics : List String := []
  recording_status : String := "pending"
  recording_started_at : Option Int := none
  recording_ended_at : Option Int := none
  duration_seconds : Option Int := none
  processed_at : Option Int := none
  error_message : Option String := none
  created_at : Int := 0
deriving DecidableEq

/-- `ChatConversation` (models.py, lines 123-148); `phone_number` holds the
user's email address per the model's help text. -/
structure ChatConversation where
  id : Nat
  phone_number : String
  title : String
  total_messages : Nat := 0
deriving DecidableEq

/-- The persistent store: the three tables the core reads and mutates, plus
fresh-id counters standing in for the database's primary-key generation. -/
structure Store where
  appointments : List Appointment := []
  recordings : List Recording := []
  conversations : List ChatConversation := []
  nextApptId : Nat := 1
  nextRecId : Nat := 1
  nextConvId : Nat := 1
deriving DecidableEq

/-- `CalendarAppointment.objects.get(id=...)` as an `Option`. -/
def lookupAppt (s : Store) (aid : Nat) : Option Appointment :=
  s.appointments.find? (fun a => a.id == aid)

/-- `ChatConversation.objects.get(id=...)` as an `Option`. -/
def lookupConv (s : Store) (cid : Nat) : Option ChatConversation :=
  s.conversations.find? (fun c => c.id == cid)

/-- `appointment.save()`: write back the (single, primary-keyed) row with the
given id.  Rows with other ids are untouched. -/
def updateAppt (l : List Appointment) (aid : Nat) (f : Appointment → Appointment) :
    List Appointment :=
  l.map (fun a => if a.id == aid then f a else a)

/-- `recording.save()` by id. -/
def updateRec (l : List Recording) (rid : Nat) (f : Recording → Recording) :
    List Recording :=
  l.map (fun r => if r.id == rid then f r else r)

/-- `AppointmentRecording.objects.filter(appointment_id=aid)`. -/
def recordingsFor (s : Store) (aid : Nat) : List Recording :=
  s.recordings.filter (fun r => r.appointment_id == aid)

/-- `int(duration.total_seconds() / 60)` exactly as it appears in
`CalendarService.create_appointment` (calendar_service.py, lines 44-46). -/
def create_duration_minutes (start_time end_time : Int) : Int :=
  Int.tdiv (end_time - start_time) 60

/-- `int(duration.total_seconds() / 60)` exactly as it appears in
`CalendarService.update_appointment` (calendar_service.py, lines 88-92). -/
def update_duration_minutes (start_time end_time : Int) : Int :=
  Int.tdiv (end_time - start_time) 60

/-- `CalendarService.create_appointment` (calendar_service.py, lines 19-70):
computes the duration from `end_time - start_time` and inserts the row with
status `scheduled`. -/
def create_appointment (s : Store) (user_email title : String)
    (start_time end_time : Int) (auto_record : Bool := true)
    (reminder_minutes_before : Int := 5) : Appointment × Store :=
  let apt : Appointment :=
    { id := s.nextApptId
      user_email := user_email
      title := title
      start_time := start_time
      end_time := end_time
      duration_minutes := create_duration_minutes start_time end_time
      auto_record := auto_record
      reminder_minutes_before := reminder_minutes_before
      status := "scheduled" }
  (apt, { s with appointments := s.appointments ++ [apt],
                 nextApptId := s.nextApptId + 1 })

/-- A time value as it reaches `update_appointment`'s kwargs: either a genuine
`datetime` object (service-layer callers pass those), or a raw JSON
string/number exactly as the PUT view forwards `request.data` — no serializer
parses the update input, so HTTP updates only ever carry raw values. -/
inductive PyTimeVal where
  | dt (t : Int)
  | raw (v : String)
deriving DecidableEq

/-- The `**kwargs` accepted by `CalendarService.update_appointment`, restricted
to the fields the claims exercise.  A `none` field means "key absent". -/
structure UpdateKwargs where
  start_time : Option PyTimeVal := none
  end_time : Option PyTimeVal := none
  status : Option String := none
deriving DecidableEq

/-- `CalendarService.update_appointment` (calendar_service.py, lines 72-106):
re-fetch the row; when `start_time` or `end_time` is among the kwargs, bind
`start`/`end` to the supplied values (absent keys fall back to the stored
datetimes) and recompute `duration = end - start` (line 91).  That subtraction
is Python datetime arithmetic: it succeeds only when both operands are
datetimes, and raises `TypeError` when either is a raw request value — before
any `setattr` or `save`, so the row is not mutated and the exception is
re-raised (lines 104-106).  There is no validation of the resulting times. -/
def update_appointment (s : Store) (aid : Nat) (kw : UpdateKwargs) :
    Except String (Appointment × Store) :=
  match lookupAppt s aid with
  | none => .error "CalendarAppointment.DoesNotExist"
  | some apt =>
    if kw.start_time.isSome || kw.end_time.isSome then
      match kw.start_time.getD (.dt apt.start_time),
            kw.end_time.getD (.dt apt.end_time) with
      | .dt startT, .dt endT =>
        let apt' : Appointment :=
          { apt with start_time := startT, end_time := endT,
                     duration_minutes := update_duration_minutes startT endT,
                     status := kw.status.getD apt.status }
        .ok (apt',
             { s with appointments := updateAppt s.appointments aid (fun _ => apt') })
      | _, _ => .error "unsupported operand type(s) for -"
    else
      let apt' : Appointment := { apt with status := kw.status.getD apt.status }
      .ok (apt',
           { s with appointments := updateAppt s.appointments aid (fun _ => apt') })

/-- `CreateAppointmentSerializer.validate` (serializers.py, lines 248-252):
operates on its parsed `DateTimeField`s and rejects `end_time <= start_time`
before any state is created. -/
def createAppointmentSerializer_validate (start_time end_time : Int) :
    Except String Unit :=
  if end_time ≤ start_time then .error "End time must be after start time"
  else .ok ()

/-- `CalendarAppointmentSerializer.validate` (serializers.py, lines 223-228):
operates on parsed datetimes and runs its time check only when BOTH
`start_time` and `end_time` are present in the input data.  No view invokes it
on update input — the PUT path only uses this serializer for the response. -/
def calendarAppointmentSerializer_validate (start_time end_time : Option Int) :
    Except String Unit :=
  match start_time, end_time with
  | some st, some en =>
    if en ≤ st then .error "End time must be after start time" else .ok ()
  | _, _ => .ok ()

/-- The POST handler `CalendarAppointmentListView.post` (calendar_views.py,
lines 73-107): runs `CreateAppointmentSerializer` validation and only on
success calls `CalendarService.create_appointment`. -/
def calendar_appointment_post (s : Store) (user_email title : String)
    (start_time end_time : Int) : Except String (Appointment × Store) := do
  let _ ← createAppointmentSerializer_validate start_time end_time
  pure (create_appointment s user_email title start_time end_time)

/-- The PUT handler `CalendarAppointmentDetailView.put` (calendar_views.py,
lines 147-182): passes `request.data` straight to
`CalendarService.update_appointment`.  No serializer `validate` runs on the
input (the `CalendarAppointmentSerializer` there only serializes the
response), and nothing parses the values, so every time field an HTTP update
carries is a `PyTimeVal.raw`.  An exception from the service propagates to the
generic handler (HTTP 500) with nothing mutated. -/
def calendar_appointment_put (s : Store) (aid : Nat) (kw : UpdateKwargs) :
    Except String (Appointment × Store) :=
  update_appointment s aid kw

/-- `CalendarService.get_appointments_needing_reminders` (calendar_service.py,
lines 191-216): a first filter on `status/reminder_sent/auto_record`, then a
Python loop collecting the ids whose reminder window contains `now`
(`now >= start - lead` and `now < start`), then a final `id__in` re-query. -/
def get_appointments_needing_reminders (s : Store) (now : Int) :
    List Appointment :=
  let base := s.appointments.filter
    (fun a => a.status == "scheduled" && !a.reminder_sent && a.auto_record)
  let ids := (base.filter (fun a =>
      decide (a.start_time - a.reminder_minutes_before * 60 ≤ now) &&
      decide (now < a.start_time))).map (fun a => a.id)
  s.appointments.filter (fun a => ids.contains a.id)

/-- `CalendarService.get_appointments_to_start_recording` (calendar_service.py,
lines 452-467). -/
def get_appointments_to_start_recording (s : Store) (now : Int) :
    List Appointment :=
  s.appointments.filter (fun a =>
    (a.status == "scheduled" || a.status == "reminder_sent") && a.auto_record &&
    decide (a.start_time ≤ now) && decide (now ≤ a.end_time))

/-- `CalendarService.get_appointments_to_stop_recording` (calendar_service.py,
lines 469-482). -/
def get_appointments_to_stop_recording (s : Store) (now : Int) :
    List Appointment :=
  s.appointments.filter (fun a =>
    a.status == "recording" && decide (a.end_time ≤ now))

/-- Stand-in for `strftime` date rendering in email/conversation titles: any
rendering of the timestamp works, no claim inspects titles. -/
def strftime_b_d_Y (t : Int) : String := toString t

/-- The bottom half of `CalendarService.create_appointment_conversation`
(calendar_service.py, lines 842-857): create the conversation row and link its
id back onto the appointment. -/
def newConversationFor (s : Store) (apt : Appointment) :
    ChatConversation × Store :=
  let conv : ChatConversation :=
    { id := s.nextConvId
      phone_number := apt.user_email
      title := "REC " ++ apt.title ++ " - " ++ strftime_b_d_Y apt.start_time
      total_messages := 0 }
  (conv,
   { s with conversations := s.conversations ++ [conv]
            nextConvId := s.nextConvId + 1
            appointments := updateAppt s.appointments apt.id
              (fun a => { a with conversation_id := some conv.id }) })

/-- `CalendarService.create_appointment_conversation` (calendar_service.py,
lines 816-864): if the appointment already links a conversation that still
exists, return it; otherwise (no link, or the linked conversation was deleted)
create a new one and link it.  Raises `DoesNotExist` for a missing
appointment. -/
def create_appointment_conversation (s : Store) (aid : Nat) :
    Except String (ChatConversation × Store) :=
  match lookupAppt s aid with
  | none => .error "CalendarAppointment.DoesNotExist"
  | some apt =>
    match apt.conversation_id with
    | some cid =>
      match lookupConv s cid with
      | some conv => .ok (conv, s)
      | none => .ok (newConversationFor s apt)
    | none => .ok (newConversationFor s apt)

/-- External behavior of a scheduler tick: whether the Brevo email key is
configured, and, per appointment id, the outcome of each `requests.post` (an
HTTP status code, or `.error` when the call raises, e.g. a network timeout). -/
structure SchedulerEnv where
  brevoConfigured : Bool
  reminderEmail : Nat → Except String Int
  recStartedEmail : Nat → Except String Int

/-- `CalendarService.send_reminder` (calendar_service.py, lines 218-450).
Every exception path is caught inside the function itself (it returns `False`),
so it is total.  The conversation created at lines 238-248 persists even when a
later step fails.  On HTTP 201 the appointment is marked
`reminder_sent`/`reminder_sent` status (lines 432-440). -/
def send_reminder (env : SchedulerEnv) (s : Store) (now : Int) (aid : Nat) :
    Bool × Store :=
  match lookupAppt s aid with
  | none => (false, s)
  | some apt =>
    if apt.reminder_sent then (false, s)
    else
      let s1 := match create_appointment_conversation s aid with
        | .ok (_, sc) => sc
        | .error _ => s
      if !env.brevoConfigured then (false, s1)
      else
        match env.reminderEmail aid with
        | .error _ => (false, s1)
        | .ok code =>
          if code == 201 then
            (true,
             { s1 with appointments := (updateAppt s1.appointments aid
                 (fun a => { a with reminder_sent := true
                                    reminder_sent_at := some now
                                    status := "reminder_sent" })) })
          else (false, s1)

/-- `CalendarService.send_recording_started_email` (calendar_service.py, lines
866-1062): totally caught inside; on HTTP 201 it sets
`conversation_link_sent = True` (lines 1050-1055). -/
def send_recording_started_email (env : SchedulerEnv) (s : Store) (aid : Nat)
    (_conversation_id : Nat) : Bool × Store :=
  match lookupAppt s aid with
  | none => (false, s)
  | some _ =>
    if !env.brevoConfigured then (false, s)
    else
      match env.recStartedEmail aid with
      | .error _ => (false, s)
      | .ok code =>
        if code == 201 then
          (true, { s with appointments := (updateAppt s.appointments aid
                     (fun a => { a with conversation_link_sent := true })) })
        else (false, s)

/-- `AppointmentRecordingService.get_recording_by_appointment`
(appointment_recording_service.py, lines 229-247):
`filter(appointment_id=...).order_by(-created_at).first()` — the most recently
created recording row for the appointment, in any status, or `None`. -/
def get_recording_by_appointment (s : Store) (aid : Nat) : Option Recording :=
  (recordingsFor s aid).foldl
    (fun acc r => match acc with
      | none => some r
      | some b => if r.created_at > b.created_at then some r else some b)
    none

/-- `AppointmentRecordingService.start_recording`
(appointment_recording_service.py, lines 20-53): raises `DoesNotExist` for a
missing appointment, otherwise unconditionally creates a Recording row in
`recording` state with `recording_started_at = now` and moves the appointment
to `recording` status. -/
def start_recording (s : Store) (aid : Nat) (now : Int) :
    Except String (Recording × Store) :=
  match lookupAppt s aid with
  | none => .error "CalendarAppointment.DoesNotExist"
  | some _ =>
    let r : Recording :=
      { id := s.nextRecId
        appointment_id := aid
        recording_status := "recording"
        recording_started_at := some now
        created_at := now }
    .ok (r,
      { s with recordings := s.recordings ++ [r]
               nextRecId := s.nextRecId + 1
               appointments := updateAppt s.appointments aid
                 (fun a => { a with status := "recording" }) })

/-- A Python `try: body except Exception: fallback(e)` where the body yields a
value. -/
def pyTry {α : Type} (body : Except String α) (fallback : String → α) : α :=
  match body with
  | .ok a => a
  | .error e => fallback e

/-- A `try/except` that swallows the exception and keeps a fallback value, as
every scan-level and tick-level handler in scheduler.py does (they log and
continue). -/
def pyTryE {α : Type} (body : Except String α) (fallback : α) :
    Except String α :=
  match body with
  | .ok a => .ok a
  | .error _ => .ok fallback

/-- The scheduler's per-appointment loop shape (scheduler.py, lines 46-55,
70-94 and 109-134): each iteration runs under its own `try`; an exception is
logged and the loop continues with the next appointment.  In every embedded
step an exception can only arise before the step's first store mutation, so
falling back to the pre-step store is exact. -/
def forEachCaught (step : Appointment → Store → Except String Store) :
    List Appointment → Store → Store
  | [], s => s
  | a :: rest, s => forEachCaught step rest (pyTry (step a s) (fun _ => s))

/-- Body of one iteration of `send_reminders` (scheduler.py, lines 46-55):
`send_reminder` itself never raises. -/
def send_reminders_step (env : SchedulerEnv) (now : Int) (apt : Appointment)
    (s : Store) : Except String Store :=
  .ok (send_reminder env s now apt.id).2

/-- The query-then-loop body of `send_reminders` (scheduler.py, lines 43-55). -/
def send_reminders_run (env : SchedulerEnv) (s : Store) (now : Int) : Store :=
  forEachCaught (send_reminders_step env now)
    (get_appointments_needing_reminders s now) s

/-- `send_reminders` (scheduler.py, lines 40-61): query the due appointments,
then the caught per-appointment loop, all under the scan's own `try`. -/
def send_reminders (env : SchedulerEnv) (s : Store) (now : Int) :
    Except String Store :=
  pyTryE (.ok (send_reminders_run env s now)) s

/-- Body of one iteration of `start_recordings` (scheduler.py, lines 70-94):
ensure the per-appointment conversation, skip when ANY recording row already
exists for the appointment (lines 76-80), otherwise create the recording and
send the conversation-link email when the snapshot says it was not yet sent. -/
def start_recordings_step (env : SchedulerEnv) (now : Int) (apt : Appointment)
    (s : Store) : Except String Store :=
  match create_appointment_conversation s apt.id with
  | .error e => .error e
  | .ok (conv, s1) =>
    match get_recording_by_appointment s1 apt.id with
    | some _ => .ok s1
    | none =>
      match start_recording s1 apt.id now with
      | .error e => .error e
      | .ok (_, s2) =>
        if !apt.conversation_link_sent then
          .ok (send_recording_started_email env s2 apt.id conv.id).2
        else .ok s2

/-- The query-then-loop body of `start_recordings` (scheduler.py, lines
67-94). -/
def start_recordings_run (env : SchedulerEnv) (s : Store) (now : Int) : Store :=
  forEachCaught (start_recordings_step env now)
    (get_appointments_to_start_recording s now) s

/-- `start_recordings` (scheduler.py, lines 64-100). -/
def start_recordings (env : SchedulerEnv) (s : Store) (now : Int) :
    Except String Store :=
  pyTryE (.ok (start_recordings_run env s now)) s

/-- Body of one iteration of `stop_recordings` (scheduler.py, lines 109-134):
if the appointment's latest recording is in `recording` state, move it to
`processing`, stamp `recording_ended_at`, compute `duration_seconds`, and mark
the appointment `completed`.  Subtracting a missing `recording_started_at`
would raise a `TypeError` in Python, caught by the loop's handler. -/
def stop_recordings_step (now : Int) (apt : Appointment) (s : Store) :
    Except String Store :=
  match get_recording_by_appointment s apt.id with
  | none => .ok s
  | some r =>
    if r.recording_status == "recording" then
      match r.recording_started_at with
      | none => .error "unsupported operand type for -: datetime and NoneType"
      | some t0 =>
        let s1 := { s with recordings := (updateRec s.recordings r.id
            (fun x => { x with recording_status := "processing"
                               recording_ended_at := some now
                               duration_seconds := some (now - t0) })) }
        .ok { s1 with appointments := (updateAppt s1.appointments apt.id
            (fun a => { a with status := "completed" })) }
    else .ok s

/-- The query-then-loop body of `stop_recordings` (scheduler.py, lines
106-134). -/
def stop_recordings_run (s : Store) (now : Int) : Store :=
  forEachCaught (stop_recordings_step now)
    (get_appointments_to_stop_recording s now) s

/-- `stop_recordings` (scheduler.py, lines 103-140). -/
def stop_recordings (s : Store) (now : Int) : Except String Store :=
  pyTryE (.ok (stop_recordings_run s now)) s

/-- `process_appointments` (scheduler.py, lines 17-37): the tick.  Runs the
three scans in order, the whole body under a `try` whose handler only logs. -/
def process_appointments (env : SchedulerEnv) (s : Store) (now : Int) :
    Except String Store :=
  pyTryE
    (do
      let s1 ← send_reminders env s now
      let s2 ← start_recordings env s1 now
      let s3 ← stop_recordings s2 now
      pure s3)
    s

/-- Model of the Python values the external-call services return.
`process_recording` subscripts them with string keys as if they were dicts,
while the services actually return tuples, so the embedding keeps the dynamic
shape of each value. -/
inductive PyVal where
  | vnone
  | vstr (s : String)
  | vrat (q : Rat)
  | vlist (xs : List String)
  | vtuple (xs : List PyVal)
  | vdict (entries : List (String × PyVal))

mutual

/-- Structural equality on modelled Python values (Python `==` between values
of different shapes is `False`, not an error). -/
def PyVal.beq : PyVal → PyVal → Bool
  | .vnone, .vnone => true
  | .vstr a, .vstr b => a == b
  | .vrat a, .vrat b => a == b
  | .vlist a, .vlist b => a == b
  | .vtuple a, .vtuple b => PyVal.beqList a b
  | .vdict a, .vdict b => PyVal.beqDict a b
  | _, _ => false

/-- Elementwise equality of tuple contents. -/
def PyVal.beqList : List PyVal → List PyVal → Bool
  | [], [] => true
  | a :: la, b :: lb => PyVal.beq a b && PyVal.beqList la lb
  | _, _ => false

/-- Entrywise equality of dict contents. -/
def PyVal.beqDict : List (String × PyVal) → List (String × PyVal) → Bool
  | [], [] => true
  | (ka, va) :: la, (kb, vb) :: lb =>
    ka == kb && PyVal.beq va vb && PyVal.beqDict la lb
  | _, _ => false

end

instance : BEq PyVal := ⟨PyVal.beq⟩

/-- `str(e)` of the `TypeError` CPython raises for `t[key]` when `t` is a
tuple and `key` a `str`. -/
def tupleStrIndexMsg : String := "tuple indices must be integers or slices, not str"

/-- Python subscripting `v[key]` with a `str` key: a dict lookup; every other
shape raises (`TypeError` for sequences, `KeyError` for a missing dict key). -/
def pySubscriptStr : PyVal → String → Except String PyVal
  | .vdict es, k =>
    match es.lookup k with
    | some v => .ok v
    | none => .error ("KeyError: " ++ k)
  | .vtuple _, _ => .error tupleStrIndexMsg
  | .vlist _, _ => .error "list indices must be integers or slices, not str"
  | .vstr _, _ => .error "string indices must be integers"
  | .vnone, _ => .error "NoneType object is not subscriptable"
  | .vrat _, _ => .error "float object is not subscriptable"

/-- Python `v.get(key, default)`: a dict method; on any non-dict value the
attribute access raises `AttributeError`. -/
def pyDictGet : PyVal → String → PyVal → Except String PyVal
  | .vdict es, k, d => .ok ((es.lookup k).getD d)
  | .vtuple _, _, _ => .error "tuple object has no attribute get"
  | _, _, _ => .error "object has no attribute get"

/-- Lift an optional string into the Python value model. -/
def optPy : Option String → PyVal
  | none => .vnone
  | some s => .vstr s

/-- Every `return` of `SpeechToTextService.transcribe_audio`
(speech_to_text_service.py, lines 35-75) produces the 2-tuple
`(transcribed_text, error_message)`; the concrete pair is the network
behavior of the run. -/
def transcribe_audio (behavior : Option String × Option String) : PyVal :=
  .vtuple [optPy behavior.1, optPy behavior.2]

/-- Every `return` of `IntentClassifierService.classify_intent`
(intent_classifier_service.py, lines 21-96) produces the 4-tuple
`(intent, confidence, summary, error_message)`. -/
def classify_intent (b : String × Rat × String × Option String) : PyVal :=
  .vtuple [.vstr b.1, .vrat b.2.1, .vstr b.2.2.1, optPy b.2.2.2]

/-- The dict of extracted fields that `extract_entities` builds
(entity_extraction_service.py, lines 36-42, 104-110, 117-125). -/
structure ExtractedEntities where
  keywords : List String := []
  entities : List String := []
  domain_terms : List String := []
  action_items : List String := []
  topics : List String := []
deriving DecidableEq

/-- Every `return` of `EntityExtractionService.extract_entities`
(entity_extraction_service.py, lines 19-115) produces the 2-tuple
`(entities_dict, error_message)`. -/
def extract_entities (b : ExtractedEntities × Option String) : PyVal :=
  .vtuple
    [.vdict
      [("keywords", .vlist b.1.keywords),
       ("entities", .vlist b.1.entities),
       ("domain_terms", .vlist b.1.domain_terms),
       ("action_items", .vlist b.1.action_items),
       ("topics", .vlist b.1.topics)],
     optPy b.2]

/-- External behavior of one `process_recording` run: what each service call
returns; the Groq summary step (`.ok none` = no API key so the summary is left
alone, `.ok (some t)` = a summary was generated, `.error` = the step raised —
caught at lines 188-190); and the current time for `processed_at`. -/
structure PipelineEnv where
  transcribeResult : Option String × Option String
  classifyResult : String × Rat × String × Option String
  extractResult : ExtractedEntities × Option String
  groqSummary : Except String (Option String)
  now : Int

/-- Assignment of a dynamically typed Python value into a nullable text
column of the model. -/
def pyAsStrOpt : PyVal → Option String
  | .vstr s => some s
  | _ => none

/-- Assignment into the nullable float column. -/
def pyAsRatOpt : PyVal → Option Rat
  | .vrat q => some q
  | _ => none

/-- Assignment into an array column. -/
def pyAsListStr : PyVal → List String
  | .vlist xs => xs
  | _ => []

/-- Truthiness of `recording.audio_file` (a nullable CharField): falsy when
`NULL` or the empty string. -/
def pyFalsyStrOpt : Option String → Bool
  | none => true
  | some s => s == ""

/-- Outcome of a `process_recording` call: the recording as returned, or the
exception re-raised to the caller together with the recording row as the
`except` handler stored it. -/
inductive ProcOutcome where
  | returned (recording : Recording)
  | raised (msg : String) (stored : Recording)
deriving DecidableEq

/-- The `try` body of `AppointmentRecordingService.process_recording`
(appointment_recording_service.py, lines 113-210), statement by statement.
`transcription_result`, `intent_result` and `entity_result` are the Python
values the services return (2-, 4- and 2-tuples); the pipeline subscripts
them with string keys.  The propagation of `completed` onto the appointment
and the completion email (lines 197-207) mutate no recording field and are
elided. -/
def process_recording_body (env : PipelineEnv) (rec0 : Recording) :
    Except String Recording := do
  if pyFalsyStrOpt rec0.audio_file then throw "No audio file to process"
  let transcription_result := transcribe_audio env.transcribeResult
  let st ← pySubscriptStr transcription_result "status"
  if st == PyVal.vstr "success" then
    let tv ← pySubscriptStr transcription_result "text"
    let rec1 := { rec0 with transcribed_text := pyAsStrOpt tv }
    let intent_result := classify_intent env.classifyResult
    let sti ← pySubscriptStr intent_result "status"
    let rec2 ←
      if sti == PyVal.vstr "success" then do
        let iv ← pySubscriptStr intent_result "intent"
        let cv ← pySubscriptStr intent_result "confidence"
        let sv ← pyDictGet intent_result "summary" (.vstr "")
        pure { rec1 with intent := pyAsStrOpt iv
                         intent_confidence := pyAsRatOpt cv
                         summary := pyAsStrOpt sv }
      else pure rec1
    let entity_result := extract_entities env.extractResult
    let ste ← pySubscriptStr entity_result "status"
    let rec3 ←
      if ste == PyVal.vstr "success" then do
        let kw ← pyDictGet entity_result "keywords" (.vlist [])
        let en ← pyDictGet entity_result "entities" (.vlist [])
        let dt ← pyDictGet entity_result "domain_terms" (.vlist [])
        let ai ← pyDictGet entity_result "action_items" (.vlist [])
        let tp ← pyDictGet entity_result "topics" (.vlist [])
        pure { rec2 with keywords := pyAsListStr kw
                         entities := pyAsListStr en
                         domain_terms := pyAsListStr dt
                         action_items := pyAsListStr ai
                         topics := pyAsListStr tp }
      else pure rec2
    let rec4 := match env.groqSummary with
      | .ok (some t) => { rec3 with summary := some t }
      | .ok none => rec3
      | .error _ => rec3
    pure { rec4 with recording_status := "completed", processed_at := some env.now }
  else
    let ev ← pyDictGet transcription_result "error" (.vstr "Transcription failed")
    pure { rec0 with recording_status := "failed", error_message := pyAsStrOpt ev }

/-- `AppointmentRecordingService.process_recording`
(appointment_recording_service.py, lines 102-227).  On an exception anywhere
in the body, the handler (lines 215-227) re-fetches the row — no in-memory
field assignment of the body was saved before any possible exception point —
marks it `failed` with `str(e)`, saves, and re-raises. -/
def process_recording (env : PipelineEnv) (rec0 : Recording) : ProcOutcome :=
  match process_recording_body env rec0 with
  | .ok r => .returned r
  | .error e =>
    .raised e { rec0 with recording_status := "failed", error_message := some e }

/-! ### Example stores used by witnesses and counterexample evaluations -/

/-- Recording rows in `recording` status for one appointment (the invariant in
spec §3: at most one such row per appointment). -/
def activeFor (s : Store) (aid : Nat) : List Recording :=
  s.recordings.filter
    (fun r => r.appointment_id == aid && r.recording_status == "recording")

/-- At most one recording is in `recording` state per appointment. -/
def atMostOneActive (s : Store) : Prop :=
  ∀ aid : Nat, (activeFor s aid).length ≤ 1

/-- A recording row with an uploaded audio artifact, as
`upload_and_process_recording` creates it. -/
def recB : Recording :=
  { id := 1, appointment_id := 1, audio_file := some "appointment_recordings/a.webm",
    recording_status := "processing", recording_started_at := some 100,
    recording_ended_at := some 100, created_at := 100 }

/-- A pipeline run whose transcription fails (no API key configured). -/
def envB : PipelineEnv :=
  { transcribeResult := (none, some "AssemblyAI API key not configured")
    classifyResult := ("unknown_intent", 0, "", some "Groq API key not configured")
    extractResult := ({ }, some "API key not configured")
    groqSummary := .ok none
    now := 200 }

/-- A pipeline run with a successful transcription and intent classification
but a failing entity extraction. -/
def envC : PipelineEnv :=
  { transcribeResult := (some "let us meet tomorrow", none)
    classifyResult := ("meeting_scheduling", 9/10, "wants to schedule", none)
    extractResult := ({ }, some "Error: Expecting value")
    groqSummary := .ok none
    now := 200 }

/-- Email environment where every send succeeds. -/
def envS : SchedulerEnv :=
  { brevoConfigured := true
    reminderEmail := fun _ => .ok 201
    recStartedEmail := fun _ => .ok 201 }

/-- An appointment inside its recording window with a recording already in
`recording` state. -/
def storeC : Store :=
  { appointments := [{ id := 1, user_email := "u@example.com", title := "standup",
                       start_time := 100, end_time := 200, duration_minutes := 2,
                       status := "scheduled" }]
    recordings := [{ id := 1, appointment_id := 1,
                     recording_status := "recording",
                     recording_started_at := some 120, created_at := 120 }]
    nextApptId := 2, nextRecId := 2 }

/-- An appointment inside its recording window whose earlier recording
failed. -/
def storeD : Store :=
  { appointments := [{ id := 1, user_email := "u@example.com", title := "standup",
                       start_time := 100, end_time := 200, duration_minutes := 2,
                       status := "reminder_sent" }]
    recordings := [{ id := 1, appointment_id := 1,
                     recording_status := "failed",
                     error_message := some "tuple indices must be integers or slices, not str",
                     recording_started_at := some 120, created_at := 120 }]
    nextApptId := 2, nextRecId := 2 }

/-- An appointment 10 minutes out with a 5-minute reminder lead. -/
def apptE : Appointment :=
  { id := 1, user_email := "u@example.com", title := "standup",
    start_time := 300, end_time := 900, duration_minutes := 10 }

/-- A store holding just `apptE`. -/
def storeE : Store := { appointments := [apptE], nextApptId := 2 }


/-- A stored appointment with `start_time = 1000`, `end_time = 2000`. -/
def apptA : Appointment :=
  { id := 1, user_email := "u@example.com", title := "demo",
    start_time := 1000, end_time := 2000, duration_minutes := 16 }

/-- A store holding just `apptA`. -/
def storeA : Store := { appointments := [apptA], nextApptId := 2 }

/-- Whether an optional kwarg value has the only shapes `request.data` can
deliver: key absent, or a raw JSON value (never a datetime object). -/
def isRawOpt : Option PyTimeVal → Bool
  | none => true
  | some (.raw _) => true
  | some (.dt _) => false

/-- The stored invariant of spec section 3: end time strictly after start
time, for every persisted appointment. -/
def appointmentsInv (s : Store) : Prop :=
  ∀ a ∈ s.appointments, a.start_time < a.end_time

/-- The body of a PUT that tries to move `end_time` before the stored
`start_time`: the value arrives as the raw JSON string it is on the wire. -/
def kw9 : UpdateKwargs := { end_time := some (.raw "1970-01-01T00:08:20Z") }

/-! ### Helper lemmas -/

/-- `updateAppt` only rewrites rows whose id matches, through `f`. -/
theorem mem_updateAppt {l : List Appointment} {aid : Nat}
    {f : Appointment → Appointment} {b : Appointment}
    (hb : b ∈ updateAppt l aid f) :
    ∃ a ∈ l, b = if a.id = aid then f a else a := by
  obtain ⟨a, ha, hab⟩ := List.mem_map.mp hb
  refine ⟨a, ha, ?_⟩
  simpa using hab.symm

/-- After `updateAppt` with an id-preserving `f`, every row with the target id
satisfies whatever `f` forces. -/
theorem updateAppt_forces {l : List Appointment} {aid : Nat}
    {f : Appointment → Appointment}
    {P : Appointment → Prop} (hP : ∀ a, P (f a)) :
    ∀ b ∈ updateAppt l aid f, b.id = aid → P b := by
  intro b hb hbid
  obtain ⟨a, _, hba⟩ := mem_updateAppt hb
  by_cases h : a.id = aid
  · simpa [hba, h] using hP a
  · exfalso
    rw [hba] at hbid
    simp [h] at hbid

/-! ### C8 — duration correctness -/

/-- C8: for `start = T` and `end = T + 47` minutes, the stored
`duration_minutes` is exactly 47, both when the times are set by
`create_appointment` and when a later `update_appointment` changes `end_time`;
and the two call sites apply the very same recomputation from `(end - start)`. -/
theorem C8_duration_recomputed_identically (T : Int) :
    (create_appointment { } "u@example.com" "standup" T (T + 47 * 60)).1.duration_minutes = 47
    ∧ (∃ a s2,
        update_appointment
          (create_appointment { } "u@example.com" "standup" T (T + 10 * 60)).2 1
          { end_time := some (.dt (T + 47 * 60)) } = .ok (a, s2)
        ∧ a.duration_minutes = 47
        ∧ a.start_time = T ∧ a.end_time = T + 47 * 60)
    ∧ (∀ st en : Int, create_duration_minutes st en = update_duration_minutes st en) := by
  have h47 : ∀ u : Int, Int.tdiv (u + 47 * 60 - u) 60 = 47 := by
    intro u
    have : u + 47 * 60 - u = 2820 := by ring
    rw [this]
    decide
  refine ⟨?_, ?_, fun st en => rfl⟩
  · simpa [create_appointment, create_duration_minutes] using h47 T
  · refine ⟨_, _, rfl, ?_, ?_, ?_⟩
    · simpa [update_appointment, create_appointment, lookupAppt,
             update_duration_minutes] using h47 T
    · simp [update_appointment, create_appointment, lookupAppt]
    · simp [update_appointment, create_appointment, lookupAppt]

/-! ### C9 — updates are never rejected with a ValidationError; they crash -/

/-- C9 counterexample: the claim says an update whose resulting times would
have `end <= start` is rejected with a `ValidationError`.  On the code, a PUT
that supplies `end_time` (necessarily a raw JSON value — no serializer parses
update input) instead raises `TypeError` at `end - start`
(calendar_service.py:91): the outcome is that `TypeError`, not the
serializer's "End time must be after start time", and no appointment state is
returned, so nothing is mutated. -/
theorem C9_counterexample_update_typeerror_not_validationerror :
    calendar_appointment_put storeA 1 kw9
      = .error "unsupported operand type(s) for -"
    ∧ calendar_appointment_put storeA 1 kw9
      ≠ .error "End time must be after start time"
    ∧ ∀ p, calendar_appointment_put storeA 1 kw9 ≠ .ok p := by
  have h : calendar_appointment_put storeA 1 kw9
      = .error "unsupported operand type(s) for -" := rfl
  refine ⟨h, ?_, ?_⟩
  · intro hbad
    rw [h] at hbad
    injection hbad with hmsg
    exact absurd hmsg (by decide)
  · intro p hok
    rw [h] at hok
    exact Except.noConfusion hok

/-- A time-carrying update whose values are request-shaped (raw or absent)
always errors inside `update_appointment` before any mutation: `DoesNotExist`
for a missing appointment, otherwise the `TypeError` from `end - start`. -/
theorem put_raw_time_errors (s : Store) (aid : Nat) (kw : UpdateKwargs)
    (hraw1 : isRawOpt kw.start_time = true)
    (hraw2 : isRawOpt kw.end_time = true)
    (htime : (kw.start_time.isSome || kw.end_time.isSome) = true) :
    calendar_appointment_put s aid kw = .error "CalendarAppointment.DoesNotExist"
    ∨ calendar_appointment_put s aid kw
        = .error "unsupported operand type(s) for -" := by
  unfold calendar_appointment_put update_appointment
  cases hl : lookupAppt s aid with
  | none => exact Or.inl rfl
  | some apt =>
    right
    cases hst : kw.start_time with
    | none =>
      cases hen : kw.end_time with
      | none => rw [hst, hen] at htime; simp at htime
      | some v =>
        cases v with
        | dt t => rw [hen] at hraw2; simp [isRawOpt] at hraw2
        | raw r => rfl
    | some v1 =>
      cases v1 with
      | dt t => rw [hst] at hraw1; simp [isRawOpt] at hraw1
      | raw r1 =>
        cases hen : kw.end_time with
        | none => rfl
        | some v2 =>
          cases v2 with
          | dt t2 => rw [hen] at hraw2; simp [isRawOpt] at hraw2
          | raw r2 => rfl

/-- C9 (amended): a create request with `end_time <= start_time` is rejected
with the serializer's `ValidationError` before anything is created, and a
successful create appends a row with `end > start`.  An update request is
never checked by the serializer: if it carries a time field it fails with a
`TypeError` from `end - start` (calendar_service.py:91) — a 500, not a
`ValidationError` — before any field is set or saved; if it carries none, it
changes no times.  Either way a request-shaped update preserves the stored
invariant `end_time > start_time`. -/
theorem C9_create_validated_update_crashes_unvalidated
    (s : Store) (user_email title : String) (st en : Int) (aid : Nat)
    (kw : UpdateKwargs)
    (hraw1 : isRawOpt kw.start_time = true)
    (hraw2 : isRawOpt kw.end_time = true) :
    (en ≤ st →
      calendar_appointment_post s user_email title st en
        = .error "End time must be after start time")
    ∧ (appointmentsInv s →
        ∀ p, calendar_appointment_post s user_email title st en = .ok p →
          appointmentsInv p.2)
    ∧ ((kw.start_time.isSome || kw.end_time.isSome) = true →
        calendar_appointment_put s aid kw = .error "CalendarAppointment.DoesNotExist"
        ∨ calendar_appointment_put s aid kw
            = .error "unsupported operand type(s) for -")
    ∧ (appointmentsInv s →
        ∀ p, calendar_appointment_put s aid kw = .ok p → appointmentsInv p.2) := by
  refine ⟨?_, ?_, put_raw_time_errors s aid kw hraw1 hraw2, ?_⟩
  · intro hle
    simp [calendar_appointment_post, createAppointmentSerializer_validate, hle,
          Bind.bind, Except.bind]
  · intro hinv p hok
    by_cases hle : en ≤ st
    · rw [show calendar_appointment_post s user_email title st en
          = .error "End time must be after start time" by
            simp [calendar_appointment_post, createAppointmentSerializer_validate,
                  hle, Bind.bind, Except.bind]] at hok
      exact Except.noConfusion hok
    · have hred : calendar_appointment_post s user_email title st en
          = .ok (create_appointment s user_email title st en) := by
        simp [calendar_appointment_post, createAppointmentSerializer_validate,
              hle, Bind.bind, Except.bind, Pure.pure, Except.pure]
      rw [hred] at hok
      injection hok with hp
      subst hp
      intro b hb
      rw [show (create_appointment s user_email title st en).2.appointments
          = s.appointments ++ [(create_appointment s user_email title st en).1]
          from rfl] at hb
      rcases List.mem_append.mp hb with hold | hnew
      · exact hinv b hold
      · have hb' : b = (create_appointment s user_email title st en).1 := by
          simpa using hnew
        subst hb'
        show st < en
        omega
  · intro hinv p hok
    by_cases htime : (kw.start_time.isSome || kw.end_time.isSome) = true
    · rcases put_raw_time_errors s aid kw hraw1 hraw2 htime with h | h <;>
        (rw [h] at hok; exact Except.noConfusion hok)
    · revert hok
      unfold calendar_appointment_put update_appointment
      cases hl : lookupAppt s aid with
      | none => intro hok; exact Except.noConfusion hok
      | some apt =>
        have hc : (kw.start_time.isSome || kw.end_time.isSome) = false := by
          cases hv : (kw.start_time.isSome || kw.end_time.isSome) with
          | true => exact absurd hv htime
          | false => rfl
        rw [hc]
        intro hok
        simp only [Bool.false_eq_true, if_false, ite_false] at hok
        injection hok with hp
        subst hp
        intro b hb
        simp only at hb
        rcases mem_updateAppt hb with ⟨a0, ha0, hba⟩
        by_cases hid : a0.id = aid
        · rw [hba]
          simp only [hid, if_true, ite_true]
          show apt.start_time < apt.end_time
          exact hinv apt (List.mem_of_find?_eq_some hl)
        · rw [hba]
          simp only [hid, if_false, ite_false]
          exact hinv a0 ha0

/-- Witness for C9 at a concrete store and a concrete raw-valued PUT body. -/
theorem C9_witness :
    isRawOpt kw9.start_time = true ∧ isRawOpt kw9.end_time = true
    ∧ calendar_appointment_post storeA "u@example.com" "demo" 1000 500
        = .error "End time must be after start time"
    ∧ (calendar_appointment_put storeA 1 kw9
          = .error "CalendarAppointment.DoesNotExist"
       ∨ calendar_appointment_put storeA 1 kw9
          = .error "unsupported operand type(s) for -")
    ∧ appointmentsInv storeA
    ∧ ∀ p, calendar_appointment_put storeA 1 kw9 = .ok p → appointmentsInv p.2 := by
  have h := C9_create_validated_update_crashes_unvalidated storeA
    "u@example.com" "demo" 1000 500 1 kw9 (by decide) (by decide)
  have hinv : appointmentsInv storeA := by
    intro a ha
    have hae : a = apptA := by simpa [storeA] using ha
    subst hae
    decide
  exact ⟨by decide, by decide, h.1 (by decide), h.2.2.1 (by decide), hinv,
         fun p hp => h.2.2.2 hinv p hp⟩

/-! ### C5 — the scheduler tick never raises; per-appointment isolation -/

/-- C5: a `process_appointments` tick always returns normally (it is `.ok` of
the three scans run in order), for every store and every external behavior;
and the per-appointment loop shape shared by the three scans continues with
the remaining appointments from the caught fallback state, so one
appointment's failure never aborts the scan. -/
theorem C5_tick_never_raises (env : SchedulerEnv) (s : Store) (now : Int) :
    process_appointments env s now =
      Except.ok
        (stop_recordings_run
          (start_recordings_run env (send_reminders_run env s now) now) now)
    ∧ (∀ (step : Appointment → Store → Except String Store)
         (a : Appointment) (rest : List Appointment) (st : Store),
        forEachCaught step (a :: rest) st =
          forEachCaught step rest (pyTry (step a st) (fun _ => st)))
    ∧ (∀ (e : String) (st : Store),
        pyTry (Except.error e : Except String Store) (fun _ => st) = st) :=
  ⟨rfl, fun _ _ _ _ => rfl, fun _ _ => rfl⟩

/-! ### C1 / C2 — the pipeline crashes on the services' tuple results -/

/-- C1: when the transcription step fails (the service returns
`(None, error)`), `process_recording` does end with the recording marked
`failed` and every analysis field untouched — but not through the intended
branch: subscripting the returned 2-tuple with `'status'` raises `TypeError`,
so the stored `error_message` is the `TypeError` text, not the transcription
error message, and the exception is re-raised to the caller. -/
theorem C1_transcription_failure_stores_typeerror
    (env : PipelineEnv) (rec0 : Recording) (err : String)
    (haudio : pyFalsyStrOpt rec0.audio_file = false)
    (hfail : env.transcribeResult = (none, some err)) :
    ∃ stored,
      process_recording env rec0 = ProcOutcome.raised tupleStrIndexMsg stored
      ∧ stored.recording_status = "failed"
      ∧ stored.error_message = some tupleStrIndexMsg
      ∧ (err ≠ tupleStrIndexMsg → stored.error_message ≠ some err)
      ∧ stored.intent = rec0.intent
      ∧ stored.intent_confidence = rec0.intent_confidence
      ∧ stored.keywords = rec0.keywords
      ∧ stored.entities = rec0.entities
      ∧ stored.domain_terms = rec0.domain_terms
      ∧ stored.action_items = rec0.action_items
      ∧ stored.topics = rec0.topics
      ∧ stored.summary = rec0.summary
      ∧ stored.transcribed_text = rec0.transcribed_text := by
  have hbody : process_recording_body env rec0 = .error tupleStrIndexMsg := by
    simp only [process_recording_body, haudio, transcribe_audio, pySubscriptStr,
               Bind.bind, Except.bind, if_false, Bool.false_eq_true]
    rfl
  refine ⟨{ rec0 with recording_status := "failed",
                      error_message := some tupleStrIndexMsg },
          ?_, rfl, rfl, ?_, rfl, rfl, rfl, rfl, rfl, rfl, rfl, rfl, rfl⟩
  · simp [process_recording, hbody]
  · intro hne h
    exact hne (Option.some.inj h).symm

/-- C2: even when transcription and intent classification both succeed and only
entity extraction fails, `process_recording` never reaches `completed`: the
very first `['status']` subscript on the transcription 2-tuple raises
`TypeError`, the recording is stored as `failed` with the `TypeError` text,
`intent` stays unpopulated, and the call never returns normally. -/
theorem C2_entity_failure_does_not_degrade_gracefully
    (env : PipelineEnv) (rec0 : Recording)
    (t i sm e2 : String) (c : Rat) (d : ExtractedEntities)
    (haudio : pyFalsyStrOpt rec0.audio_file = false)
    (hok : env.transcribeResult = (some t, none))
    (hintent : env.classifyResult = (i, c, sm, none))
    (hext : env.extractResult = (d, some e2)) :
    ∃ stored,
      process_recording env rec0 = ProcOutcome.raised tupleStrIndexMsg stored
      ∧ stored.recording_status = "failed"
      ∧ stored.recording_status ≠ "completed"
      ∧ stored.intent = rec0.intent
      ∧ stored.keywords = rec0.keywords
      ∧ stored.entities = rec0.entities
      ∧ stored.domain_terms = rec0.domain_terms
      ∧ stored.action_items = rec0.action_items
      ∧ stored.topics = rec0.topics
      ∧ (∀ r : Recording, process_recording env rec0 ≠ ProcOutcome.returned r) := by
  have hbody : process_recording_body env rec0 = .error tupleStrIndexMsg := by
    simp only [process_recording_body, haudio, transcribe_audio, pySubscriptStr,
               Bind.bind, Except.bind, if_false, Bool.false_eq_true]
    rfl
  refine ⟨{ rec0 with recording_status := "failed",
                      error_message := some tupleStrIndexMsg },
          ?_, rfl, by simp, rfl, rfl, rfl, rfl, rfl, rfl, ?_⟩
  · simp [process_recording, hbody]
  · intro r h
    rw [process_recording, hbody] at h
    exact ProcOutcome.noConfusion h

/-- Witness for C1 at a concrete failing transcription. -/
theorem C1_witness :
    pyFalsyStrOpt recB.audio_file = false
    ∧ envB.transcribeResult = (none, some "AssemblyAI API key not configured")
    ∧ ∃ stored,
        process_recording envB recB = ProcOutcome.raised tupleStrIndexMsg stored
        ∧ stored.recording_status = "failed"
        ∧ stored.error_message = some tupleStrIndexMsg
        ∧ (("AssemblyAI API key not configured" : String) ≠ tupleStrIndexMsg →
            stored.error_message ≠ some "AssemblyAI API key not configured")
        ∧ stored.intent = recB.intent
        ∧ stored.intent_confidence = recB.intent_confidence
        ∧ stored.keywords = recB.keywords
        ∧ stored.entities = recB.entities
        ∧ stored.domain_terms = recB.domain_terms
        ∧ stored.action_items = recB.action_items
        ∧ stored.topics = recB.topics
        ∧ stored.summary = recB.summary
        ∧ stored.transcribed_text = recB.transcribed_text :=
  ⟨by decide, rfl,
   C1_transcription_failure_stores_typeerror envB recB
     "AssemblyAI API key not configured" (by decide) rfl⟩

/-- Witness for C2 at a concrete run where only entity extraction fails. -/
theorem C2_witness :
    pyFalsyStrOpt recB.audio_file = false
    ∧ envC.transcribeResult = (some "let us meet tomorrow", none)
    ∧ envC.classifyResult = ("meeting_scheduling", 9/10, "wants to schedule", none)
    ∧ envC.extractResult = ({ }, some "Error: Expecting value")
    ∧ ∃ stored,
        process_recording envC recB = ProcOutcome.raised tupleStrIndexMsg stored
        ∧ stored.recording_status = "failed"
        ∧ stored.recording_status ≠ "completed"
        ∧ stored.intent = recB.intent
        ∧ stored.keywords = recB.keywords
        ∧ stored.entities = recB.entities
        ∧ stored.domain_terms = recB.domain_terms
        ∧ stored.action_items = recB.action_items
        ∧ stored.topics = recB.topics
        ∧ (∀ r : Recording, process_recording envC recB ≠ ProcOutcome.returned r) :=
  ⟨by decide, rfl, rfl, rfl,
   C2_entity_failure_does_not_degrade_gracefully envC recB
     "let us meet tomorrow" "meeting_scheduling" "wants to schedule"
     "Error: Expecting value" (9/10) { } (by decide) rfl rfl rfl⟩

/-! ### Lemmas about the start-recordings scan (C3, C10) -/

/-- `recordingsFor` reads only the recordings table. -/
theorem recordingsFor_congr {s1 s2 : Store} (h : s1.recordings = s2.recordings)
    (aid : Nat) : recordingsFor s1 aid = recordingsFor s2 aid := by
  simp [recordingsFor, h]

/-- Getting or creating a conversation never touches the recordings table. -/
theorem conv_recordings (s : Store) (aid : Nat) :
    match create_appointment_conversation s aid with
    | .ok p => p.2.recordings = s.recordings
    | .error _ => True := by
  unfold create_appointment_conversation
  cases hl : lookupAppt s aid with
  | none => simp
  | some apt =>
    cases hc : apt.conversation_id with
    | none => simp [hc, newConversationFor]
    | some cid =>
      cases hv : lookupConv s cid with
      | none => simp [hc, hv, newConversationFor]
      | some conv => simp [hc, hv]

/-- `start_recording` appends one row carrying the appointment's id. -/
theorem start_recording_recordings (s : Store) (aid : Nat) (now : Int) :
    match start_recording s aid now with
    | .ok p => p.1.appointment_id = aid ∧ p.1.recording_status = "recording"
        ∧ p.2.recordings = s.recordings ++ [p.1]
    | .error _ => True := by
  unfold start_recording
  cases hl : lookupAppt s aid with
  | none => simp
  | some apt => exact ⟨rfl, rfl, rfl⟩

/-- The recording-started email never touches the recordings table. -/
theorem email_preserves_recordings (env : SchedulerEnv) (s : Store)
    (aid cid : Nat) :
    (send_recording_started_email env s aid cid).2.recordings = s.recordings := by
  unfold send_recording_started_email
  cases hl : lookupAppt s aid with
  | none => rfl
  | some apt =>
    by_cases hb : env.brevoConfigured
    · cases he : env.recStartedEmail aid with
      | error e => simp [hb, he]
      | ok code =>
        by_cases hc : code == 201
        · simp [hb, he, hc]
        · simp [hb, he, hc]
    · simp [hb]

/-- The latest-row fold keeps a `some` accumulator. -/
theorem latestRec_isSome (l : List Recording) (b : Recording) :
    (l.foldl (fun acc r =>
        match acc with
        | none => some r
        | some x => if r.created_at > x.created_at then some r else some x)
      (some b)).isSome := by
  induction l generalizing b with
  | nil => rfl
  | cons r l ih =>
    simp only [List.foldl_cons]
    by_cases hgt : r.created_at > b.created_at
    · simpa [hgt] using ih r
    · simpa [hgt] using ih b

/-- A non-empty recordings filter makes `get_recording_by_appointment` hit. -/
theorem get_recording_isSome_of_ne (s : Store) (aid : Nat)
    (h : recordingsFor s aid ≠ []) :
    (get_recording_by_appointment s aid).isSome := by
  unfold get_recording_by_appointment
  cases hl : recordingsFor s aid with
  | nil => exact absurd hl h
  | cons r l => simpa [List.foldl_cons] using latestRec_isSome l r

/-- One caught iteration of the start-recordings loop never adds a recording
for an appointment that already has one. -/
theorem start_step_preserves (env : SchedulerEnv) (now : Int) (a : Appointment)
    {s : Store} {aid : Nat} (h : recordingsFor s aid ≠ []) :
    recordingsFor (pyTry (start_recordings_step env now a s) (fun _ => s)) aid
      = recordingsFor s aid := by
  unfold start_recordings_step
  cases hcv : create_appointment_conversation s a.id with
  | error e => simp [pyTry]
  | ok p =>
    obtain ⟨conv, s1⟩ := p
    have hs1 : s1.recordings = s.recordings := by
      have hc := conv_recordings s a.id
      rw [hcv] at hc
      exact hc
    cases hgr : get_recording_by_appointment s1 a.id with
    | some r0 => simp [pyTry, recordingsFor, hs1, hgr]
    | none =>
      have hempty : recordingsFor s1 a.id = [] := by
        by_contra hne
        have hsome := get_recording_isSome_of_ne s1 a.id hne
        rw [hgr] at hsome
        simp at hsome
      cases hsr : start_recording s1 a.id now with
      | error e => simp [pyTry, hgr, hsr]
      | ok q =>
        obtain ⟨r, s2⟩ := q
        have hq := start_recording_recordings s1 a.id now
        rw [hsr] at hq
        obtain ⟨hrid, _, hs2⟩ := hq
        replace hrid : r.appointment_id = a.id := hrid
        replace hs2 : s2.recordings = s1.recordings ++ [r] := hs2
        have hne_id : a.id ≠ aid := by
          intro heq
          apply h
          rw [← recordingsFor_congr hs1 aid, ← heq]
          exact hempty
        have hrecs2 : recordingsFor s2 aid = recordingsFor s aid := by
          have hsplit : recordingsFor s2 aid
              = recordingsFor s1 aid ++ List.filter (fun x => x.appointment_id == aid) [r] := by
            simp [recordingsFor, hs2, List.filter_append]
          rw [hsplit, recordingsFor_congr hs1 aid]
          have hfalse : (r.appointment_id == aid) = false := by
            simp [hrid, hne_id]
          simp [List.filter, hfalse]
        by_cases hcl : a.conversation_link_sent
        · simp [pyTry, hgr, hsr, hcl, hrecs2]
        · have hem := email_preserves_recordings env s2 a.id conv.id
          simp only [pyTry, hgr, hsr, hcl]
          simp only [Bool.not_false, if_true, ite_true, Bool.false_eq_true,
                     if_false]
          rw [recordingsFor_congr hem aid]
          exact hrecs2

/-- Over the whole scan: appointments that already have a recording row keep
exactly their old rows. -/
theorem start_run_preserves_core (env : SchedulerEnv) (now : Int) :
    ∀ (l : List Appointment) (s : Store) (aid : Nat),
      recordingsFor s aid ≠ [] →
      recordingsFor (forEachCaught (start_recordings_step env now) l s) aid
        = recordingsFor s aid := by
  intro l
  induction l with
  | nil => intro s aid _; rfl
  | cons a rest ih =>
    intro s aid h
    have hstep := start_step_preserves env now a h
    rw [forEachCaught, ih _ aid (by rw [hstep]; exact h)]
    exact hstep

/-- `activeFor` reads only the recordings table. -/
theorem activeFor_congr {s1 s2 : Store} (h : s1.recordings = s2.recordings)
    (aid : Nat) : activeFor s1 aid = activeFor s2 aid := by
  simp [activeFor, h]

/-- No recording rows at all for an appointment means no active ones. -/
theorem activeFor_nil {s : Store} {aid : Nat} (h : recordingsFor s aid = []) :
    activeFor s aid = [] := by
  rw [recordingsFor, List.filter_eq_nil_iff] at h
  rw [activeFor, List.filter_eq_nil_iff]
  intro r hr
  have hp := h r hr
  simp only [Bool.and_eq_true, not_and]
  intro hid
  exact absurd hid hp

/-- One caught iteration of the start-recordings loop preserves the
at-most-one-active-recording invariant. -/
theorem start_step_preserves_active (env : SchedulerEnv) (now : Int)
    (a : Appointment) {s : Store} (hinv : atMostOneActive s) :
    atMostOneActive (pyTry (start_recordings_step env now a s) (fun _ => s)) := by
  unfold start_recordings_step
  cases hcv : create_appointment_conversation s a.id with
  | error e => simpa [pyTry] using hinv
  | ok p =>
    obtain ⟨conv, s1⟩ := p
    have hs1 : s1.recordings = s.recordings := by
      have hc := conv_recordings s a.id
      rw [hcv] at hc
      exact hc
    have hinv1 : atMostOneActive s1 := by
      intro x
      rw [activeFor_congr hs1 x]
      exact hinv x
    cases hgr : get_recording_by_appointment s1 a.id with
    | some r0 => simpa [pyTry, hgr] using hinv1
    | none =>
      have hempty : recordingsFor s1 a.id = [] := by
        by_contra hne
        have hsome := get_recording_isSome_of_ne s1 a.id hne
        rw [hgr] at hsome
        simp at hsome
      cases hsr : start_recording s1 a.id now with
      | error e => simpa [pyTry, hgr, hsr] using hinv
      | ok q =>
        obtain ⟨r, s2⟩ := q
        have hq := start_recording_recordings s1 a.id now
        rw [hsr] at hq
        obtain ⟨hrid, hrst, hs2⟩ := hq
        replace hrid : r.appointment_id = a.id := hrid
        replace hrst : r.recording_status = "recording" := hrst
        replace hs2 : s2.recordings = s1.recordings ++ [r] := hs2
        have hact2 : atMostOneActive s2 := by
          intro aid2
          have hsplit : activeFor s2 aid2
              = activeFor s1 aid2 ++ List.filter
                  (fun x => x.appointment_id == aid2 && x.recording_status == "recording")
                  [r] := by
            simp [activeFor, hs2, List.filter_append]
          by_cases heq : a.id = aid2
          · have hnil : activeFor s1 aid2 = [] := by
              apply activeFor_nil
              rw [← heq]
              exact hempty
            rw [hsplit, hnil, List.nil_append]
            exact le_trans (List.length_filter_le _ _) (by simp)
          · have hnot : (r.appointment_id == aid2 && r.recording_status == "recording") = false := by
              simp [hrid]
              intro habs
              exact absurd habs heq
            rw [hsplit]
            simp only [List.filter, hnot, List.append_nil]
            exact hinv1 aid2
        by_cases hcl : a.conversation_link_sent
        · simpa [pyTry, hgr, hsr, hcl] using hact2
        · have hem := email_preserves_recordings env s2 a.id conv.id
          simp only [pyTry, hgr, hsr, hcl, Bool.not_false, if_true, ite_true,
                     Bool.false_eq_true, if_false]
          intro x
          rw [activeFor_congr hem x]
          exact hact2 x

/-- The invariant is preserved by the whole caught loop. -/
theorem start_run_preserves_active (env : SchedulerEnv) (now : Int) :
    ∀ (l : List Appointment) (s : Store), atMostOneActive s →
      atMostOneActive (forEachCaught (start_recordings_step env now) l s) := by
  intro l
  induction l with
  | nil => intro s h; exact h
  | cons a rest ih =>
    intro s h
    rw [forEachCaught]
    exact ih _ (start_step_preserves_active env now a h)

/-! ### C3 — no duplicate recordings; at most one active per appointment -/

/-- C3: if an appointment already has a recording row in `recording` state,
running the start-recording scan (again) leaves its recording rows exactly as
they were — no second Recording is created; and the scan preserves the
at-most-one-recording-in-`recording`-state-per-appointment invariant. -/
theorem C3_no_duplicate_recordings (env : SchedulerEnv) (s : Store) (now : Int) :
    (∀ aid : Nat,
      (∃ r ∈ s.recordings, r.appointment_id = aid ∧ r.recording_status = "recording") →
      recordingsFor (start_recordings_run env s now) aid = recordingsFor s aid)
    ∧ (atMostOneActive s → atMostOneActive (start_recordings_run env s now)) := by
  constructor
  · intro aid hex
    obtain ⟨r, hr, hrid, _⟩ := hex
    apply start_run_preserves_core
    intro hnil
    rw [recordingsFor, List.filter_eq_nil_iff] at hnil
    exact hnil r hr (by simp [hrid])
  · intro hinv
    exact start_run_preserves_active env now _ s hinv

/-! ### C10 — any existing recording row (failed included) blocks re-recording -/

/-- C10: the start-recording scan skips every appointment that has ANY
recording row — whatever its status — so in particular an appointment whose
earlier recording `failed` (or is `processing`/`completed`) never gets a new
automatic recording; its recording rows are unchanged by the scan. -/
theorem C10_existing_recording_blocks_restart (env : SchedulerEnv) (s : Store)
    (now : Int) (aid : Nat) :
    (recordingsFor s aid ≠ [] →
      recordingsFor (start_recordings_run env s now) aid = recordingsFor s aid)
    ∧ (∀ r ∈ s.recordings, r.appointment_id = aid → r.recording_status = "failed" →
        recordingsFor (start_recordings_run env s now) aid = recordingsFor s aid) := by
  constructor
  · intro h
    exact start_run_preserves_core env now _ s aid h
  · intro r hr hrid _
    apply start_run_preserves_core
    intro hnil
    rw [recordingsFor, List.filter_eq_nil_iff] at hnil
    exact hnil r hr (by simp [hrid])

/-- Witness for C3 at a concrete store with an active recording. -/
theorem C3_witness :
    (∃ r ∈ storeC.recordings, r.appointment_id = 1 ∧ r.recording_status = "recording")
    ∧ recordingsFor (start_recordings_run envS storeC 150) 1 = recordingsFor storeC 1
    ∧ atMostOneActive (start_recordings_run envS storeC 150) := by
  have h1 : ∃ r ∈ storeC.recordings, r.appointment_id = 1 ∧ r.recording_status = "recording" := by
    decide
  have hinv : atMostOneActive storeC := by
    intro aid
    exact le_trans (List.length_filter_le _ _) (by simp [storeC])
  exact ⟨h1, (C3_no_duplicate_recordings envS storeC 150).1 1 h1,
         (C3_no_duplicate_recordings envS storeC 150).2 hinv⟩

/-- Witness for C10 at a concrete store with a failed recording. -/
theorem C10_witness :
    recordingsFor storeD 1 ≠ []
    ∧ (∃ r ∈ storeD.recordings, r.appointment_id = 1 ∧ r.recording_status = "failed")
    ∧ recordingsFor (start_recordings_run envS storeD 150) 1 = recordingsFor storeD 1 := by
  refine ⟨by decide, by decide, ?_⟩
  exact (C10_existing_recording_blocks_restart envS storeD 150 1).1 (by decide)

/-! ### C6 — exact characterization of the reminder scan -/

/-- C6: with distinct primary keys, the reminder scan returns exactly the
appointments with `status = scheduled`, `reminder_sent = false`,
`auto_record = true` whose reminder window `[start - lead, start)` contains
`now`; in particular nothing whose start time has passed. -/
theorem C6_due_for_reminder_characterization (s : Store) (now : Int)
    (a : Appointment)
    (hnodup : (s.appointments.map (fun x => x.id)).Nodup) :
    (a ∈ get_appointments_needing_reminders s now ↔
      (a ∈ s.appointments ∧ a.status = "scheduled" ∧ a.reminder_sent = false ∧
       a.auto_record = true ∧
       a.start_time - a.reminder_minutes_before * 60 ≤ now ∧ now < a.start_time))
    ∧ (a.start_time ≤ now → a ∉ get_appointments_needing_reminders s now) := by
  have hiff : a ∈ get_appointments_needing_reminders s now ↔
      (a ∈ s.appointments ∧ a.status = "scheduled" ∧ a.reminder_sent = false ∧
       a.auto_record = true ∧
       a.start_time - a.reminder_minutes_before * 60 ≤ now ∧ now < a.start_time) := by
    unfold get_appointments_needing_reminders
    constructor
    · intro ha
      rw [List.mem_filter] at ha
      obtain ⟨hmem, hcont⟩ := ha
      have hid : a.id ∈ (((s.appointments.filter
            (fun x => x.status == "scheduled" && !x.reminder_sent && x.auto_record)).filter
            (fun x => decide (x.start_time - x.reminder_minutes_before * 60 ≤ now) &&
                      decide (now < x.start_time))).map (fun x => x.id)) := by
        simpa using hcont
      rw [List.mem_map] at hid
      obtain ⟨b, hb, hbid⟩ := hid
      rw [List.mem_filter] at hb
      obtain ⟨hb1, hb2⟩ := hb
      rw [List.mem_filter] at hb1
      obtain ⟨hbmem, hbp⟩ := hb1
      have hba : b = a := List.inj_on_of_nodup_map hnodup hbmem hmem hbid
      subst hba
      simp only [Bool.and_eq_true, beq_iff_eq, Bool.not_eq_true'] at hbp
      simp only [Bool.and_eq_true, decide_eq_true_eq] at hb2
      exact ⟨hmem, hbp.1.1, hbp.1.2, hbp.2, hb2.1, hb2.2⟩
    · rintro ⟨hmem, hst, hrs, har, hw1, hw2⟩
      rw [List.mem_filter]
      refine ⟨hmem, ?_⟩
      have hid : a.id ∈ (((s.appointments.filter
            (fun x => x.status == "scheduled" && !x.reminder_sent && x.auto_record)).filter
            (fun x => decide (x.start_time - x.reminder_minutes_before * 60 ≤ now) &&
                      decide (now < x.start_time))).map (fun x => x.id)) := by
        rw [List.mem_map]
        refine ⟨a, ?_, rfl⟩
        rw [List.mem_filter, List.mem_filter]
        exact ⟨⟨hmem, by simp [hst, hrs, har]⟩, by simp [hw1, hw2]⟩
      simpa using hid
  refine ⟨hiff, ?_⟩
  intro hle hmem
  have hconds := hiff.mp hmem
  omega

/-- Witness for C6: inside the window the appointment is returned; at a time
past its start it is not. -/
theorem C6_witness :
    ((storeE.appointments.map (fun x => x.id)).Nodup)
    ∧ apptE ∈ get_appointments_needing_reminders storeE 290
    ∧ apptE ∉ get_appointments_needing_reminders storeE 350 := by
  refine ⟨by decide, ?_, ?_⟩
  · exact (C6_due_for_reminder_characterization storeE 290 apptE (by decide)).1.mpr
      ⟨by decide, rfl, rfl, rfl, by decide, by decide⟩
  · exact (C6_due_for_reminder_characterization storeE 350 apptE (by decide)).2
      (by decide)

/-! ### C4 — a sent reminder never reappears in the scan -/

/-- If every stored row with the given id has `reminder_sent = true`, the
reminder scan can never return that id, at any time. -/
theorem not_in_due_ids (s2 : Store) (aid : Nat)
    (hall : ∀ b ∈ s2.appointments, b.id = aid → b.reminder_sent = true)
    (now2 : Int) :
    aid ∉ (get_appointments_needing_reminders s2 now2).map (fun a => a.id) := by
  intro hmem
  rw [List.mem_map] at hmem
  obtain ⟨x, hx, hxid⟩ := hmem
  unfold get_appointments_needing_reminders at hx
  rw [List.mem_filter] at hx
  obtain ⟨hxmem, hxcont⟩ := hx
  have hid : x.id ∈ (((s2.appointments.filter
        (fun b => b.status == "scheduled" && !b.reminder_sent && b.auto_record)).filter
        (fun b => decide (b.start_time - b.reminder_minutes_before * 60 ≤ now2) &&
                  decide (now2 < b.start_time))).map (fun b => b.id)) := by
    simpa using hxcont
  rw [List.mem_map] at hid
  obtain ⟨b, hb, hbid⟩ := hid
  rw [List.mem_filter] at hb
  obtain ⟨hb1, _⟩ := hb
  rw [List.mem_filter] at hb1
  obtain ⟨hbmem, hbp⟩ := hb1
  simp only [Bool.and_eq_true, beq_iff_eq, Bool.not_eq_true'] at hbp
  have hbaid : b.id = aid := by rw [hbid, hxid]
  have := hall b hbmem hbaid
  rw [this] at hbp
  simp at hbp

/-- Inversion of a successful `send_reminder`: it can only have returned
`True` through the HTTP-201 branch, which stamps `reminder_sent = true` on the
stored row. -/
theorem send_reminder_true_inv (env : SchedulerEnv) (s : Store) (now : Int)
    (aid : Nat) (h : (send_reminder env s now aid).1 = true) :
    ∀ b ∈ (send_reminder env s now aid).2.appointments,
      b.id = aid → b.reminder_sent = true := by
  unfold send_reminder at h ⊢
  cases hl : lookupAppt s aid with
  | none => simp [hl] at h
  | some apt =>
    by_cases hrs : apt.reminder_sent
    · simp [hl, hrs] at h
    · cases hcv : create_appointment_conversation s aid with
      | error e =>
        by_cases hb : env.brevoConfigured
        · cases he : env.reminderEmail aid with
          | error e2 => simp [hl, hrs, hcv, hb, he] at h
          | ok code =>
            by_cases hc : code == 201
            · simp only [hl, hcv, he]
              simp only [hrs, Bool.false_eq_true, if_false, ite_false,
                         hb, Bool.not_true, hc, if_true, ite_true]
              exact updateAppt_forces (fun a => rfl)
            · simp [hl, hrs, hcv, hb, he, hc] at h
        · simp [hl, hrs, hcv, hb] at h
      | ok p =>
        by_cases hb : env.brevoConfigured
        · cases he : env.reminderEmail aid with
          | error e2 => simp [hl, hrs, hcv, hb, he] at h
          | ok code =>
            by_cases hc : code == 201
            · simp only [hl, hcv, he]
              simp only [hrs, Bool.false_eq_true, if_false, ite_false,
                         hb, Bool.not_true, hc, if_true, ite_true]
              exact updateAppt_forces (fun a => rfl)
            · simp [hl, hrs, hcv, hb, he, hc] at h
        · simp [hl, hrs, hcv, hb] at h

/-- C4: once `send_reminder` succeeds (it returned `True`, having set
`reminder_sent = true` and `status = reminder_sent`), that appointment id
never appears in any later reminder scan of the resulting store. -/
theorem C4_sent_reminder_never_reappears (env : SchedulerEnv) (s : Store)
    (now : Int) (aid : Nat)
    (h : (send_reminder env s now aid).1 = true) (now2 : Int) :
    aid ∉ (get_appointments_needing_reminders
        (send_reminder env s now aid).2 now2).map (fun a => a.id) :=
  not_in_due_ids _ aid (send_reminder_true_inv env s now aid h) now2

/-- Witness for C4 at a concrete successful send. -/
theorem C4_witness :
    (send_reminder envS storeE 290 1).1 = true
    ∧ 1 ∉ (get_appointments_needing_reminders
        (send_reminder envS storeE 290 1).2 999).map (fun a => a.id) :=
  ⟨by decide, C4_sent_reminder_never_reappears envS storeE 290 1 (by decide) 999⟩

/-! ### C7 — ensureConversation is idempotent -/

/-- `find?` after an id-preserving per-id rewrite is the rewritten find. -/
theorem find?_updateAppt (l : List Appointment) (aid : Nat)
    (f : Appointment → Appointment) (hf : ∀ a, (f a).id = a.id) :
    List.find? (fun a => a.id == aid) (updateAppt l aid f)
      = (List.find? (fun a => a.id == aid) l).map f := by
  induction l with
  | nil => rfl
  | cons a l ih =>
    by_cases h : a.id = aid
    · simp [updateAppt, List.find?_cons, h, hf]
    · simpa [updateAppt, List.find?_cons, h] using ih

/-- C7: from an appointment with no linked conversation, three successive
`create_appointment_conversation` calls return a conversation with the same id
each time, create exactly one conversation row in total, and leave the
appointment linked to that conversation. -/
theorem C7_conversation_reuse (s : Store) (aid : Nat) (apt : Appointment)
    (hl : lookupAppt s aid = some apt) (hc : apt.conversation_id = none) :
    ∃ c1 s1 c2 s2 c3 s3,
      create_appointment_conversation s aid = .ok (c1, s1)
      ∧ create_appointment_conversation s1 aid = .ok (c2, s2)
      ∧ create_appointment_conversation s2 aid = .ok (c3, s3)
      ∧ c2.id = c1.id ∧ c3.id = c1.id
      ∧ s3.conversations.length = s.conversations.length + 1
      ∧ (∃ a3, lookupAppt s3 aid = some a3
          ∧ a3.conversation_id = some c1.id) := by
  have haid : apt.id = aid := by
    have hp := List.find?_some hl
    simpa using hp
  subst haid
  have h1 : create_appointment_conversation s apt.id
      = .ok (newConversationFor s apt) := by
    simp [create_appointment_conversation, hl, hc]
  set conv := (newConversationFor s apt).1 with hconvdef
  set s1 := (newConversationFor s apt).2 with hs1def
  have hs1conv : s1.conversations = s.conversations ++ [conv] := rfl
  have hs1appt : s1.appointments = updateAppt s.appointments apt.id
      (fun a => { a with conversation_id := some conv.id }) := rfl
  have hl' : List.find? (fun a => a.id == apt.id) s.appointments = some apt := hl
  have hl1 : lookupAppt s1 apt.id
      = some { apt with conversation_id := some conv.id } := by
    show List.find? (fun a => a.id == apt.id) s1.appointments = _
    rw [hs1appt,
        find?_updateAppt s.appointments apt.id
          (fun a => { a with conversation_id := some conv.id }) (fun _ => rfl),
        hl']
    rfl
  have hin : conv ∈ s1.conversations := by
    rw [hs1conv]
    exact List.mem_append_right _ (List.mem_singleton_self _)
  have hsome : (lookupConv s1 conv.id).isSome := by
    unfold lookupConv
    rw [List.find?_isSome]
    exact ⟨conv, hin, by simp⟩
  obtain ⟨c2, hc2⟩ := Option.isSome_iff_exists.mp hsome
  have hc2' : s1.conversations.find? (fun c => c.id == conv.id) = some c2 := hc2
  have hc2id : c2.id = conv.id := by
    simpa using List.find?_some hc2'
  have h2 : create_appointment_conversation s1 apt.id = .ok (c2, s1) := by
    simp [create_appointment_conversation, hl1, hc2]
  refine ⟨conv, s1, c2, s1, c2, s1, h1, h2, h2, hc2id, hc2id, ?_, ?_⟩
  · rw [hs1conv]
    simp
  · exact ⟨{ apt with conversation_id := some conv.id }, hl1, rfl⟩

/-- Witness for C7 at a concrete appointment with no linked conversation. -/
theorem C7_witness :
    lookupAppt storeE 1 = some apptE
    ∧ apptE.conversation_id = none
    ∧ ∃ c1 s1 c2 s2 c3 s3,
        create_appointment_conversation storeE 1 = .ok (c1, s1)
        ∧ create_appointment_conversation s1 1 = .ok (c2, s2)
        ∧ create_appointment_conversation s2 1 = .ok (c3, s3)
        ∧ c2.id = c1.id ∧ c3.id = c1.id
        ∧ s3.conversations.length = storeE.conversations.length + 1
        ∧ (∃ a3, lookupAppt s3 1 = some a3
            ∧ a3.conversation_id = some c1.id) :=
  ⟨by decide, rfl, C7_conversation_reuse storeE 1 apptE (by decide) rfl⟩
